import Mathlib

/-!
Verification of the sliding-window moving-average logic of the ESP32
DHT11 web-server/MQTT firmware (`src/main.cpp`).

Embedding conventions:
* IEEE floats are modeled by exact rationals `ℚ`; the spec (§4.1) imposes
  no rounding requirement, and every claim uses exactly representable values.
* A sensor reading is `Option ℚ`: `none` models the NaN/Fault case
  (`isnan(...)` true), `some x` a valid reading.
* `std::deque<float>` is modeled by `List ℚ`, front at the head.
* `deque.back()` on an empty deque is undefined behavior in C++; we model
  it as `Option` with `none` meaning the program hit that undefined-behavior
  branch.  A whole-function result of `none` therefore means "undefined
  behavior", NOT a graceful "no data" answer.
-/

/-- `MOVING_AVERAGE_SIZE` from `main.cpp`: capacity of each window. -/
def MOVING_AVERAGE_SIZE : Nat := 10

/-- `std::deque::push_back`: append a value at the end (newest side). -/
def push_back (w : List ℚ) (v : ℚ) : List ℚ := w ++ [v]

/-- `std::deque::pop_front`: remove the element at the front (oldest side). -/
def pop_front (w : List ℚ) : List ℚ := w.tail

/-- `std::deque::back()`.  On an empty deque this is undefined behavior in
C++, modeled here as `none`. -/
def deque_back (w : List ℚ) : Option ℚ := w.getLast?

/-- `std::accumulate(begin, end, 0.0f)`: left fold of addition over the
window, starting from `0`. -/
def sumReadings (w : List ℚ) : ℚ := w.foldl (· + ·) 0

/-- The record step of `main.cpp` (lines 93–99 / 119–125), generic in the
capacity constant: `push_back` the value, then if the size exceeds the
capacity, `pop_front` exactly once. -/
def recordReading (cap : Nat) (w : List ℚ) (v : ℚ) : List ℚ :=
  if (push_back w v).length > cap then pop_front (push_back w v)
  else push_back w v

/-- The average computation of `main.cpp` (lines 102–106 / 128–132): the
accumulated sum divided by the window size. -/
def current_average (w : List ℚ) : ℚ := sumReadings w / (w.length : ℚ)

/-- The average query as an observation on the window state: the code's
average computation (lines 102–106) iterates the deque with `std::accumulate`
and divides; it performs no mutation, so the query returns the computed
average together with the untouched window. -/
def currentAverageQuery (w : List ℚ) : ℚ × List ℚ :=
  (current_average w, w)

/-- `readTemperatureAndCalculateMovingAverage` (lines 85–107) acting on the
`temperatureReadings` window: on NaN return `deque.back()` (undefined
behavior when empty, hence `Option`); otherwise `push_back` the reading,
`pop_front` if the size exceeds `MOVING_AVERAGE_SIZE`, and return the
accumulated sum divided by the size, together with the updated window. -/
def readTemperatureAndCalculateMovingAverageW (currentTemperature : Option ℚ)
    (temperatureReadings : List ℚ) : Option (ℚ × List ℚ) :=
  match currentTemperature with
  | none => (deque_back temperatureReadings).map
      (fun lastV => (lastV, temperatureReadings))
  | some t =>
    let r1 := push_back temperatureReadings t
    let r2 := if r1.length > MOVING_AVERAGE_SIZE then pop_front r1 else r1
    some (sumReadings r2 / (r2.length : ℚ), r2)

/-- `readHumidityAndCalculateMovingAverage` (lines 111–133) acting on the
`humidityReadings` window; transcribed from its own source lines. -/
def readHumidityAndCalculateMovingAverageW (currentHumidity : Option ℚ)
    (humidityReadings : List ℚ) : Option (ℚ × List ℚ) :=
  match currentHumidity with
  | none => (deque_back humidityReadings).map
      (fun lastV => (lastV, humidityReadings))
  | some h =>
    let r1 := push_back humidityReadings h
    let r2 := if r1.length > MOVING_AVERAGE_SIZE then pop_front r1 else r1
    some (sumReadings r2 / (r2.length : ℚ), r2)

/-- The global mutable state of `main.cpp`: the two per-metric deques
`temperatureReadings` and `humidityReadings`. -/
structure DeviceState where
  temperatureReadings : List ℚ
  humidityReadings : List ℚ
deriving DecidableEq, Repr

/-- `readTemperatureAndCalculateMovingAverage` as a transformer of the
global state: it reads and updates only the `temperatureReadings` deque. -/
def readTemperatureAndCalculateMovingAverage (currentTemperature : Option ℚ)
    (s : DeviceState) : Option (ℚ × DeviceState) :=
  (readTemperatureAndCalculateMovingAverageW currentTemperature
      s.temperatureReadings).map
    (fun p => (p.1, { s with temperatureReadings := p.2 }))

/-- `readHumidityAndCalculateMovingAverage` as a transformer of the global
state: it reads and updates only the `humidityReadings` deque. -/
def readHumidityAndCalculateMovingAverage (currentHumidity : Option ℚ)
    (s : DeviceState) : Option (ℚ × DeviceState) :=
  (readHumidityAndCalculateMovingAverageW currentHumidity
      s.humidityReadings).map
    (fun p => (p.1, { s with humidityReadings := p.2 }))

/-- The `/temperature` route handler (lines 253–257): it calls
`readTemperatureAndCalculateMovingAverage()` and sends the result as plain
text; the sensor reading taken during the request is the `Option ℚ` input. -/
def onTemperatureRequest (reading : Option ℚ) (s : DeviceState) :
    Option (ℚ × DeviceState) :=
  readTemperatureAndCalculateMovingAverage reading s

/-- The `/humidity` route handler (lines 258–262): it calls
`readHumidityAndCalculateMovingAverage()` and sends the result as plain
text. -/
def onHumidityRequest (reading : Option ℚ) (s : DeviceState) :
    Option (ℚ × DeviceState) :=
  readHumidityAndCalculateMovingAverage reading s

/-- The root-page handler (lines 250–252): `send_P` substitutes the
template placeholders through `processor` (lines 231–239), which calls
`readTemperatureAndCalculateMovingAverage()` for `%TEMPERATURE%` and then
`readHumidityAndCalculateMovingAverage()` for `%HUMIDITY%`. -/
def onRootRequest (tReading hReading : Option ℚ) (s : DeviceState) :
    Option ((ℚ × ℚ) × DeviceState) :=
  match readTemperatureAndCalculateMovingAverage tReading s with
  | none => none
  | some (tAvg, s1) =>
    match readHumidityAndCalculateMovingAverage hReading s1 with
    | none => none
    | some (hAvg, s2) => some ((tAvg, hAvg), s2)

/-! ### Helper lemmas -/

/-- The accumulated sum of a window is its list sum. -/
lemma sumReadings_eq_sum (w : List ℚ) : sumReadings w = w.sum := by
  rw [sumReadings, List.sum_eq_foldl]

/-- Characterization of a single record step on an in-invariant window:
append the value, then drop the oldest element exactly when the capacity
would be exceeded. -/
lemma recordReading_eq_drop (cap : Nat) (w : List ℚ) (v : ℚ)
    (h : w.length ≤ cap) :
    recordReading cap w v = (w ++ [v]).drop (w.length + 1 - cap) := by
  unfold recordReading push_back pop_front
  by_cases hc : (w ++ [v]).length > cap
  · have hl : (w ++ [v]).length = w.length + 1 := by simp
    have hd : w.length + 1 - cap = 1 := by omega
    rw [if_pos hc, hd, List.drop_one]
  · have hl : (w ++ [v]).length = w.length + 1 := by simp
    have hd : w.length + 1 - cap = 0 := by omega
    rw [if_neg hc, hd, List.drop_zero]

/-- A record step never empties the window when the capacity is positive. -/
lemma recordReading_length_pos (cap : Nat) (w : List ℚ) (v : ℚ)
    (h : 0 < cap) : 0 < (recordReading cap w v).length := by
  unfold recordReading push_back pop_front
  by_cases hc : (w ++ [v]).length > cap
  · have hl : (w ++ [v]).length = w.length + 1 := by simp
    rw [if_pos hc]
    have ht : (w ++ [v]).tail.length = w.length := by
      rw [List.length_tail, hl]
      omega
    omega
  · rw [if_neg hc]
    simp

/-- Folding record steps over a sequence of valid readings, starting from a
window within capacity, keeps exactly the most recent `cap` entries of the
concatenated history. -/
lemma foldl_recordReading_eq_drop (cap : Nat) (vs : List ℚ) :
    ∀ w : List ℚ, w.length ≤ cap →
      List.foldl (recordReading cap) w vs =
        (w ++ vs).drop (w.length + vs.length - cap) := by
  induction vs with
  | nil =>
    intro w h
    simp only [List.foldl_nil, List.append_nil, List.length_nil, Nat.add_zero]
    have hz : w.length - cap = 0 := by omega
    rw [hz, List.drop_zero]
  | cons v vs ih =>
    intro w h
    have hrec := recordReading_eq_drop cap w v h
    have hlenr : (recordReading cap w v).length = w.length + 1 - (w.length + 1 - cap) := by
      rw [hrec, List.length_drop]
      simp
    have hlen : (recordReading cap w v).length ≤ cap := by omega
    rw [List.foldl_cons, ih _ hlen, hrec]
    have hd : w.length + 1 - cap ≤ (w ++ [v]).length := by
      simp only [List.length_append, List.length_singleton]
      omega
    rw [← List.drop_append_of_le_length hd, List.drop_drop, List.append_assoc,
      List.singleton_append]
    congr 1
    simp only [List.length_drop, List.length_append, List.length_singleton,
      List.length_cons, List.length_nil]
    omega

/-! ### Claim theorems -/

/-- Claim C1 (code bug evidence): on the very first poll, if the sensor
reports a Fault (NaN) while both windows are still empty, the code takes the
`isnan` branch and evaluates `temperatureReadings.back()` on an empty deque —
undefined behavior (modeled as `none`) — instead of producing an explicit
"unavailable" result distinct from every numeric value. -/
theorem c1_fault_on_empty_window_is_undefined_behavior :
    readTemperatureAndCalculateMovingAverage none ⟨[], []⟩ = none ∧
    readHumidityAndCalculateMovingAverage none ⟨[], []⟩ = none ∧
    deque_back [] = none :=
  ⟨rfl, rfl, rfl⟩

/-- Claim C2 counterexample: with the temperature window holding `[1, 3]`,
a Fault cycle reports `3` — the most recently recorded raw reading returned
by `deque.back()` — while the previous average of the unchanged window is
`2`, so the value reported on a Fault is NOT the previous average. -/
theorem c2_counterexample_fault_reports_last_reading_not_average :
    readTemperatureAndCalculateMovingAverage none ⟨[1, 3], []⟩ =
      some (3, ⟨[1, 3], []⟩) ∧
    current_average [1, 3] = 2 ∧ (3 : ℚ) ≠ 2 := by
  refine ⟨rfl, ?_, by norm_num⟩
  norm_num [current_average, sumReadings, List.foldl]

/-- Claim C2 as amended: in a Fault cycle nothing is recorded and both
windows are left exactly unchanged, but the value reported is the most
recently recorded reading (the back of the window), not the previous
average; it is only defined when the window is nonempty. -/
theorem c2_fault_skips_record_and_reports_last_reading (s : DeviceState)
    (ht : s.temperatureReadings ≠ []) (hh : s.humidityReadings ≠ []) :
    readTemperatureAndCalculateMovingAverage none s =
      some (s.temperatureReadings.getLast ht, s) ∧
    readHumidityAndCalculateMovingAverage none s =
      some (s.humidityReadings.getLast hh, s) := by
  constructor
  · have h1 : readTemperatureAndCalculateMovingAverageW none s.temperatureReadings =
        (s.temperatureReadings.getLast?).map
          (fun lastV => (lastV, s.temperatureReadings)) := rfl
    rw [readTemperatureAndCalculateMovingAverage, h1,
      List.getLast?_eq_getLast _ ht]
    rfl
  · have h1 : readHumidityAndCalculateMovingAverageW none s.humidityReadings =
        (s.humidityReadings.getLast?).map
          (fun lastV => (lastV, s.humidityReadings)) := rfl
    rw [readHumidityAndCalculateMovingAverage, h1,
      List.getLast?_eq_getLast _ hh]
    rfl

/-- Witness for the amended C2 at the concrete state with windows `[2]` and
`[5]`: the Fault cycle reports the last recorded reading of each window and
leaves the state unchanged. -/
theorem c2_fault_skips_record_witness :
    readTemperatureAndCalculateMovingAverage none ⟨[2], [5]⟩ =
      some (2, ⟨[2], [5]⟩) ∧
    readHumidityAndCalculateMovingAverage none ⟨[2], [5]⟩ =
      some (5, ⟨[2], [5]⟩) := by
  have h := c2_fault_skips_record_and_reports_last_reading ⟨[2], [5]⟩
    (by simp) (by simp)
  exact h

/-- Claim C3: recording `N ≤ capacity` valid values into an initially empty
window keeps exactly those values, and the average query then returns the
arithmetic mean of exactly those `N` values. -/
theorem c3_average_of_at_most_capacity_records (cap : Nat) (vs : List ℚ)
    (hne : vs ≠ []) (hlen : vs.length ≤ cap) :
    List.foldl (recordReading cap) [] vs = vs ∧
    current_average (List.foldl (recordReading cap) [] vs) =
      vs.sum / (vs.length : ℚ) := by
  have h0 : ([] : List ℚ).length ≤ cap := by simp
  have hfold := foldl_recordReading_eq_drop cap vs [] h0
  simp only [List.nil_append, List.length_nil, Nat.zero_add] at hfold
  have hz : vs.length - cap = 0 := by omega
  rw [hz, List.drop_zero] at hfold
  refine ⟨hfold, ?_⟩
  rw [hfold, current_average, sumReadings_eq_sum]

/-- Witness for C3 at the spec scenario: capacity 10 (the code's
`MOVING_AVERAGE_SIZE`), recording the single value 42 gives average 42. -/
theorem c3_single_record_witness :
    ([(42 : ℚ)] ≠ [] ∧ List.length [(42 : ℚ)] ≤ MOVING_AVERAGE_SIZE) ∧
    current_average (List.foldl (recordReading MOVING_AVERAGE_SIZE) []
      [(42 : ℚ)]) = 42 := by
  have h := c3_average_of_at_most_capacity_records MOVING_AVERAGE_SIZE
    [(42 : ℚ)] (by simp) (by norm_num [MOVING_AVERAGE_SIZE])
  refine ⟨⟨by simp, by norm_num [MOVING_AVERAGE_SIZE]⟩, ?_⟩
  rw [h.2]
  norm_num

/-- Claim C4: recording `N > capacity` valid values into an initially empty
window keeps exactly the most recent `capacity` values (oldest-first
eviction), and the average query returns their mean. -/
theorem c4_average_of_most_recent_capacity_records (cap : Nat) (vs : List ℚ)
    (hcap : 0 < cap) (hlen : cap < vs.length) :
    List.foldl (recordReading cap) [] vs = vs.drop (vs.length - cap) ∧
    current_average (List.foldl (recordReading cap) [] vs) =
      (vs.drop (vs.length - cap)).sum / (cap : ℚ) := by
  have h0 : ([] : List ℚ).length ≤ cap := by simp
  have hfold := foldl_recordReading_eq_drop cap vs [] h0
  simp only [List.nil_append, List.length_nil, Nat.zero_add] at hfold
  refine ⟨hfold, ?_⟩
  rw [hfold, current_average, sumReadings_eq_sum, List.length_drop]
  have hc : vs.length - (vs.length - cap) = cap := by omega
  rw [hc]

/-- Witness for C4 at the spec scenario: capacity 5; after recording
5, 10, 15, 20, 25 the average is 15; recording 30 evicts the oldest value 5,
leaving `[10, 15, 20, 25, 30]` with average 20. -/
theorem c4_eviction_scenario_witness :
    ((0 : ℕ) < 5 ∧ 5 < List.length [(5 : ℚ), 10, 15, 20, 25, 30]) ∧
    current_average (List.foldl (recordReading 5) []
      [(5 : ℚ), 10, 15, 20, 25]) = 15 ∧
    List.foldl (recordReading 5) [] [(5 : ℚ), 10, 15, 20, 25, 30] =
      [10, 15, 20, 25, 30] ∧
    current_average (List.foldl (recordReading 5) []
      [(5 : ℚ), 10, 15, 20, 25, 30]) = 20 := by
  have h := c4_average_of_most_recent_capacity_records 5
    [(5 : ℚ), 10, 15, 20, 25, 30] (by norm_num) (by simp)
  refine ⟨⟨by norm_num, by simp⟩, ?_, ?_, ?_⟩
  · norm_num [current_average, sumReadings, recordReading, push_back,
      pop_front, List.foldl]
  · rw [h.1]
    norm_num
  · rw [h.2]
    norm_num

/-- Claim C5: on a window within capacity, a record step keeps
`0 ≤ length ≤ capacity`; it appends the value to the end and, exactly when
the length would exceed the capacity, removes exactly the oldest element
(strict FIFO, one out per one in); the average query and the Fault cycle
never mutate the window. -/
theorem c5_record_preserves_invariant_and_is_fifo (cap : Nat) (w : List ℚ)
    (v : ℚ) (h : w.length ≤ cap) :
    (recordReading cap w v).length ≤ cap ∧
    (w.length < cap → recordReading cap w v = w ++ [v]) ∧
    (w.length = cap → recordReading cap w v = (w ++ [v]).tail) ∧
    (currentAverageQuery w).2 = w ∧
    (∀ p : ℚ × List ℚ,
      readTemperatureAndCalculateMovingAverageW none w = some p → p.2 = w) := by
  have hrec := recordReading_eq_drop cap w v h
  refine ⟨?_, ?_, ?_, rfl, ?_⟩
  · rw [hrec, List.length_drop]
    simp only [List.length_append, List.length_singleton]
    omega
  · intro hlt
    rw [hrec]
    have hz : w.length + 1 - cap = 0 := by omega
    rw [hz, List.drop_zero]
  · intro heq
    rw [hrec]
    have ho : w.length + 1 - cap = 1 := by omega
    rw [ho, List.drop_one]
  · intro p hp
    simp only [readTemperatureAndCalculateMovingAverageW, deque_back,
      Option.map_eq_some'] at hp
    obtain ⟨a, ha, h2⟩ := hp
    subst h2
    rfl

/-- Witness for C5 at capacity 2 and full window `[1, 2]`: recording 3 keeps
the length within capacity and yields `[2, 3]` — the value appended at the
end and exactly the oldest element evicted. -/
theorem c5_record_invariant_witness :
    List.length [(1 : ℚ), 2] ≤ 2 ∧
    (recordReading 2 [(1 : ℚ), 2] 3).length ≤ 2 ∧
    recordReading 2 [(1 : ℚ), 2] 3 = [2, 3] := by
  have h := c5_record_preserves_invariant_and_is_fifo 2 [(1 : ℚ), 2] 3
    (by simp)
  refine ⟨by simp, h.1, ?_⟩
  have h3 := h.2.2.1 (by simp)
  rw [h3]
  rfl

/-- Claim C6 counterexample: serving a `/temperature` request at the empty
state, with the sensor returning the valid reading 42, mutates the state —
the temperature window changes from `[]` to `[42]` — because the handler
calls the read-and-record operation, not a pure average query. -/
theorem c6_counterexample_temperature_request_mutates_window :
    onTemperatureRequest (some 42) ⟨[], []⟩ = some (42, ⟨[42], []⟩) ∧
    (⟨[42], []⟩ : DeviceState).temperatureReadings ≠
      (⟨[], []⟩ : DeviceState).temperatureReadings := by
  constructor
  · norm_num [onTemperatureRequest, readTemperatureAndCalculateMovingAverage,
      readTemperatureAndCalculateMovingAverageW, sumReadings, push_back,
      pop_front, MOVING_AVERAGE_SIZE, List.foldl]
  · simp

/-- Claim C6 as amended: each metric endpoint handler invokes the
read-and-record operation at request time — with a valid sensor reading it
records that reading into the corresponding window (mutating the state) and
returns the new average; only in a Fault cycle is the state left
unchanged. -/
theorem c6_requests_invoke_read_and_record (x : ℚ) (s : DeviceState) :
    onTemperatureRequest (some x) s =
      some (current_average
          (recordReading MOVING_AVERAGE_SIZE s.temperatureReadings x),
        { s with temperatureReadings :=
            recordReading MOVING_AVERAGE_SIZE s.temperatureReadings x }) ∧
    onHumidityRequest (some x) s =
      some (current_average
          (recordReading MOVING_AVERAGE_SIZE s.humidityReadings x),
        { s with humidityReadings :=
            recordReading MOVING_AVERAGE_SIZE s.humidityReadings x }) ∧
    (∀ p : ℚ × DeviceState, onTemperatureRequest none s = some p →
      p.2 = s) ∧
    (∀ p : ℚ × DeviceState, onHumidityRequest none s = some p → p.2 = s) := by
  refine ⟨rfl, rfl, ?_, ?_⟩
  · intro p hp
    simp only [onTemperatureRequest, readTemperatureAndCalculateMovingAverage,
      readTemperatureAndCalculateMovingAverageW, deque_back,
      Option.map_eq_some'] at hp
    obtain ⟨a, ha, h2⟩ := hp
    subst h2
    obtain ⟨b, hb, h3⟩ := ha
    subst h3
    rfl
  · intro p hp
    simp only [onHumidityRequest, readHumidityAndCalculateMovingAverage,
      readHumidityAndCalculateMovingAverageW, deque_back,
      Option.map_eq_some'] at hp
    obtain ⟨a, ha, h2⟩ := hp
    subst h2
    obtain ⟨b, hb, h3⟩ := ha
    subst h3
    rfl

/-- Witness for the amended C6 at the state with windows `[7]` and `[8]`:
a `/temperature` request with valid reading 1 records it and returns the new
average 4; a Fault-cycle request leaves the state unchanged. -/
theorem c6_requests_witness :
    onTemperatureRequest (some 1) ⟨[7], [8]⟩ = some (4, ⟨[7, 1], [8]⟩) ∧
    ((7 : ℚ), (⟨[7], [8]⟩ : DeviceState)).2 = (⟨[7], [8]⟩ : DeviceState) := by
  have h := c6_requests_invoke_read_and_record 1 ⟨[7], [8]⟩
  constructor
  · rw [h.1]
    norm_num [current_average, sumReadings, recordReading, push_back,
      pop_front, MOVING_AVERAGE_SIZE, List.foldl]
  · exact h.2.2.1 ((7 : ℚ), ⟨[7], [8]⟩) rfl

/-- Claim C7: the average query is idempotent — any number of repeated
queries with no intervening record leaves the window unchanged and returns
the same value as the first query. -/
theorem c7_current_average_idempotent (w : List ℚ) (n : ℕ) :
    (fun u : List ℚ => (currentAverageQuery u).2)^[n] w = w ∧
    (currentAverageQuery
        ((fun u : List ℚ => (currentAverageQuery u).2)^[n] w)).1 =
      (currentAverageQuery w).1 := by
  have hfix : (fun u : List ℚ => (currentAverageQuery u).2) w = w := rfl
  refine ⟨Function.iterate_fixed hfix n, ?_⟩
  rw [Function.iterate_fixed hfix n]

/-- Claim C8: the two per-metric windows are never mixed — the temperature
operation leaves the humidity window unchanged and the humidity operation
leaves the temperature window unchanged, for every input and state. -/
theorem c8_windows_never_mixed (r : Option ℚ) (s : DeviceState) :
    (∀ p : ℚ × DeviceState,
      readTemperatureAndCalculateMovingAverage r s = some p →
        p.2.humidityReadings = s.humidityReadings) ∧
    (∀ p : ℚ × DeviceState,
      readHumidityAndCalculateMovingAverage r s = some p →
        p.2.temperatureReadings = s.temperatureReadings) := by
  constructor
  · intro p hp
    simp only [readTemperatureAndCalculateMovingAverage,
      Option.map_eq_some'] at hp
    obtain ⟨a, ha, h2⟩ := hp
    subst h2
    rfl
  · intro p hp
    simp only [readHumidityAndCalculateMovingAverage,
      Option.map_eq_some'] at hp
    obtain ⟨a, ha, h2⟩ := hp
    subst h2
    rfl

/-- Witness for C8 at the empty state with valid reading 3: the temperature
operation leaves the humidity window empty and the humidity operation leaves
the temperature window empty. -/
theorem c8_windows_never_mixed_witness :
    ((3 : ℚ), (⟨[3], []⟩ : DeviceState)).2.humidityReadings = ([] : List ℚ) ∧
    ((3 : ℚ), (⟨[], [3]⟩ : DeviceState)).2.temperatureReadings =
      ([] : List ℚ) := by
  have h := c8_windows_never_mixed (some 3) ⟨[], []⟩
  refine ⟨h.1 (3, ⟨[3], []⟩) ?_, h.2 (3, ⟨[], [3]⟩) ?_⟩
  · norm_num [readTemperatureAndCalculateMovingAverage,
      readTemperatureAndCalculateMovingAverageW, sumReadings, push_back,
      pop_front, MOVING_AVERAGE_SIZE, List.foldl]
  · norm_num [readHumidityAndCalculateMovingAverage,
      readHumidityAndCalculateMovingAverageW, sumReadings, push_back,
      pop_front, MOVING_AVERAGE_SIZE, List.foldl]

/-- Claim C9: with a valid (non-NaN) sensor reading, the new value is
recorded before the division, so the divisor — the window length at the
point of division — is at least 1, and the read-and-average operation always
returns a defined numeric result (it never reaches an undefined branch). -/
theorem c9_valid_reading_division_has_positive_divisor (x : ℚ)
    (s : DeviceState) :
    0 < (recordReading MOVING_AVERAGE_SIZE s.temperatureReadings x).length ∧
    0 < (recordReading MOVING_AVERAGE_SIZE s.humidityReadings x).length ∧
    readTemperatureAndCalculateMovingAverage (some x) s =
      some (sumReadings
          (recordReading MOVING_AVERAGE_SIZE s.temperatureReadings x) /
          ((recordReading MOVING_AVERAGE_SIZE
              s.temperatureReadings x).length : ℚ),
        { s with temperatureReadings :=
            recordReading MOVING_AVERAGE_SIZE s.temperatureReadings x }) ∧
    readHumidityAndCalculateMovingAverage (some x) s =
      some (sumReadings
          (recordReading MOVING_AVERAGE_SIZE s.humidityReadings x) /
          ((recordReading MOVING_AVERAGE_SIZE
              s.humidityReadings x).length : ℚ),
        { s with humidityReadings :=
            recordReading MOVING_AVERAGE_SIZE s.humidityReadings x }) :=
  ⟨recordReading_length_pos _ _ _ (by norm_num [MOVING_AVERAGE_SIZE]),
   recordReading_length_pos _ _ _ (by norm_num [MOVING_AVERAGE_SIZE]),
   rfl, rfl⟩

/-- Claim C10: the temperature and humidity read-and-average operations
compute the same function — applied to the same sensor input and the same
window contents, they produce identical results (value and updated
window). -/
theorem c10_temperature_and_humidity_compute_same_function (r : Option ℚ)
    (w : List ℚ) :
    readTemperatureAndCalculateMovingAverageW r w =
      readHumidityAndCalculateMovingAverageW r w := by
  cases r with
  | none => rfl
  | some x => rfl
